import Mathlib

/-!
Verification of the A2A task-lifecycle protocol engine
(`shared/custom_types.py`, `shared/server.py`,
`agents/claude_cli/base_cli_task_manager.py`).

The Python code is shallowly embedded: pydantic models become Lean
structures, handlers become pure functions threading an explicit
`TMState`, and Python exceptions become an `Except PyExc` outcome.
Python-specific failure modes that the control flow depends on are
modelled explicitly:

* pydantic raises `ValidationError` when a required field (one without a
  default) is missing from the keyword arguments of a model constructor;
  extra keywords are ignored;
* calling a custom `__init__` with a keyword parameter it does not accept
  raises `TypeError`;
* a name assigned anywhere in a Python function body (including by a
  branch-local `from ... import ...` statement) is a local variable
  throughout the whole function; referencing it on a path where the
  assignment did not execute raises `UnboundLocalError`.

Components of the repository that are not under `src/` (the
`InMemoryTaskManager` base class in `shared/abc_task_manager.py`,
`shared/utils.py`, `shared/push_notification_auth.py`) are modelled from
the spec; each such definition carries a doc comment starting with
`Modelled from the spec:`.
-/

namespace A2A

/-! ## Protocol data types (shared/custom_types.py) -/

/-- `TaskState` enum (custom_types.py lines 17-26). -/
inductive TaskState where
  | submitted
  | working
  | inputRequired
  | authRequired
  | completed
  | canceled
  | rejected
  | failed
  | unknown
deriving DecidableEq, Repr

/-- One payload unit of a message or artifact.  Models both the legacy
`Part` union (`TextPart`/`FilePart`/`DataPart`, discriminated on `type`,
custom_types.py lines 48-83) and the A2A `A2APart` union
(`A2ATextPart`/`A2AFilePart`/`A2ADataPart`, discriminated on `kind`,
lines 87-112): both unions have exactly one text-carrying variant, one
file variant and one structured-data variant. -/
inductive Part where
  | text (s : String)
  | file (name : String)
  | data (payload : String)
deriving DecidableEq, Repr

/-- `A2AMessage` (custom_types.py lines 116-127), restricted to the fields
the embedded code reads.  `role` is a `Literal["user", "agent"]` in the
source; validity is enforced where pydantic would enforce it. -/
structure A2AMessage where
  role : String
  parts : List Part
  messageId : String
  taskId : Option String := none
  contextId : Option String := none
deriving DecidableEq, Repr

/-- `TaskStatus` (custom_types.py lines 137-144).  The `timestamp` field is
not modelled: no claim in scope mentions it. -/
structure TaskStatus where
  state : TaskState
  message : Option A2AMessage := none
deriving DecidableEq, Repr

/-- `Artifact` (custom_types.py lines 147-154), restricted to the fields the
embedded code reads (`artifactId` defaults to a fresh generated string;
`append`/`lastChunk` are never set by the embedded call sites). -/
structure Artifact where
  artifactId : String
  parts : List Part
deriving DecidableEq, Repr

/-- A stored `Task` (custom_types.py lines 157-164): `id`, the session /
context grouping, current `status`, accumulated `artifacts` and message
`history`. -/
structure StoredTask where
  id : String
  contextId : String
  status : TaskStatus
  artifacts : List Artifact
  history : List A2AMessage
deriving DecidableEq, Repr

/-- `PushNotificationConfig` (custom_types.py lines 194-197). -/
structure PushNotificationConfig where
  url : String
  token : Option String := none
deriving DecidableEq, Repr

/-- `TaskSendParams` (custom_types.py lines 210-217). -/
structure TaskSendParams where
  id : String
  sessionId : String
  message : A2AMessage
  acceptedOutputModes : Option (List String) := none
  pushNotification : Option PushNotificationConfig := none
  historyLength : Option Nat := none
deriving DecidableEq, Repr

/-! ## JSON-RPC envelope -/

/-- A JSON-RPC `id` value: a number, a string, or JSON null.  `null` also
models an absent field after `model_dump(exclude_none=True)`. -/
inductive RpcId where
  | numId (n : Int)
  | strId (s : String)
  | nullId
deriving DecidableEq, Repr

/-- `JSONRPCError` (custom_types.py lines 251-254). -/
structure JSONRPCError where
  code : Int
  message : String
  errData : Option String := none
deriving DecidableEq, Repr

/-- `JSONParseError` (custom_types.py lines 402-408), code -32700. -/
def JSONParseError : JSONRPCError :=
  { code := -32700, message := "Invalid JSON payload" }

/-- `InvalidRequestError` (custom_types.py lines 411-417), code -32600. -/
def InvalidRequestError (d : Option String) : JSONRPCError :=
  { code := -32600, message := "Invalid JSON-RPC Request", errData := d }

/-- `MethodNotFoundError` (custom_types.py lines 420-426), code -32601.
Defined in the source but never constructed by any code under src/. -/
def MethodNotFoundError (method : Option String) : JSONRPCError :=
  { code := -32601
    message := match method with
      | some m => "Method not found: " ++ m
      | none => "Method not found" }

/-- `InvalidParamsError` (custom_types.py lines 429-435), code -32602.  Its
`__init__` accepts only the keyword `data`. -/
def InvalidParamsError (d : Option String) : JSONRPCError :=
  { code := -32602, message := "Invalid method parameters", errData := d }

/-- `InternalError` (custom_types.py lines 438-444), code -32603.  Its
`__init__` accepts only the keyword `data`. -/
def InternalError (d : Option String) : JSONRPCError :=
  { code := -32603, message := "Internal server error", errData := d }

/-- `TaskNotFoundError` (custom_types.py lines 447-453), code -32001. -/
def TaskNotFoundError (taskId : Option String) : JSONRPCError :=
  { code := -32001
    message := match taskId with
      | some t => "Task not found: " ++ t
      | none => "Task not found" }

/-- `ContentTypeNotSupportedError` (custom_types.py lines 465-471),
code -32005. -/
def ContentTypeNotSupportedError : JSONRPCError :=
  { code := -32005, message := "Incompatible content types" }

/-- The payload carried in a successful JSON-RPC response: a Task object
(`SendTaskResponse.result`, `A2ATaskResponse`), an agent message
(`A2AMessageResponse`), or a push-notification config echo. -/
inductive ResultVal where
  | taskResult (t : StoredTask)
  | msgResult (m : A2AMessage)
  | cfgResult (taskId : String) (cfg : PushNotificationConfig)
deriving DecidableEq, Repr

/-- A constructed `JSONRPCResponse` (custom_types.py lines 257-268) and its
subclasses: `id`, optional `result`, optional `error`. -/
structure RpcResponse where
  id : RpcId
  result : Option ResultVal := none
  error : Option JSONRPCError := none
deriving DecidableEq, Repr

/-- The `model_validator` `validate_result_or_error` (custom_types.py lines
261-268): constructing a `JSONRPCResponse` with both `result` and `error`
set, or with neither set, raises; construction succeeds exactly when one of
the two is present.  Every response object the server produces goes through
this constructor. -/
def mkJSONRPCResponse (i : RpcId) (r : Option ResultVal)
    (e : Option JSONRPCError) : Except String RpcResponse :=
  if r.isSome && e.isSome then
    Except.error "result and error are mutually exclusive"
  else if r.isNone && e.isNone then
    Except.error "Either result or error must be present"
  else
    Except.ok { id := i, result := r, error := e }

/-- A response holds exactly one of a non-null `result` and a non-null
`error`. -/
def exactlyOneOfResultError (resp : RpcResponse) : Prop :=
  (resp.result.isSome ∧ resp.error = none) ∨
  (resp.result = none ∧ resp.error.isSome)

instance (resp : RpcResponse) : Decidable (exactlyOneOfResultError resp) := by
  unfold exactlyOneOfResultError
  infer_instance

/-! ## Claim C6 -/

/-- C6: every JSON-RPC response contains exactly one of a non-null `result`
and a non-null `error`: a successfully constructed `JSONRPCResponse` always
satisfies the mutual-exclusion invariant, and a construction attempt with
both or with neither fails the `validate_result_or_error` validator. -/
theorem c6_result_error_exclusive (i : RpcId) (r : Option ResultVal)
    (e : Option JSONRPCError) :
    (∀ resp : RpcResponse, mkJSONRPCResponse i r e = Except.ok resp →
      exactlyOneOfResultError resp) ∧
    (r.isSome → e.isSome → (mkJSONRPCResponse i r e).isOk = false) ∧
    (r = none → e = none → (mkJSONRPCResponse i r e).isOk = false) := by
  refine ⟨?_, ?_, ?_⟩
  · intro resp h
    cases r with
    | none =>
      cases e with
      | none => simp [mkJSONRPCResponse] at h
      | some ev =>
        simp [mkJSONRPCResponse] at h
        rw [← h]
        simp [exactlyOneOfResultError]
    | some rv =>
      cases e with
      | none =>
        simp [mkJSONRPCResponse] at h
        rw [← h]
        simp [exactlyOneOfResultError]
      | some ev => simp [mkJSONRPCResponse] at h
  · intro hr he
    cases r with
    | none => simp at hr
    | some rv =>
      cases e with
      | none => simp at he
      | some ev => simp [mkJSONRPCResponse, Except.isOk, Except.toBool]
  · intro hr he
    subst hr
    subst he
    simp [mkJSONRPCResponse, Except.isOk, Except.toBool]

/-- Witness for C6 at a concrete input: a response with a result and no
error passes construction and satisfies the invariant, and the degenerate
constructions fail. -/
theorem c6_result_error_exclusive_witness :
    (∀ resp : RpcResponse,
      mkJSONRPCResponse (RpcId.numId 1)
        (some (ResultVal.msgResult
          { role := "agent", parts := [Part.text "hi"], messageId := "m1" }))
        none = Except.ok resp →
      exactlyOneOfResultError resp) ∧
    ((none : Option ResultVal) = none → (none : Option JSONRPCError) = none →
      (mkJSONRPCResponse (RpcId.numId 1) none none).isOk = false) :=
  ⟨(c6_result_error_exclusive (RpcId.numId 1)
      (some (ResultVal.msgResult
        { role := "agent", parts := [Part.text "hi"], messageId := "m1" }))
      none).1,
   (c6_result_error_exclusive (RpcId.numId 1) none none).2.2⟩

/-! ## Task manager state

The task manager's mutable state: the task store, the push-notification
registry, plus instrumentation ghost fields recording the queries passed to
`Agent.invoke_async`, the push notifications fired, and the sequence of
status writes performed through the store. -/

/-- Association-list lookup for the task store (`self.tasks[id]`). -/
def lookupTask : List (String × StoredTask) → String → Option StoredTask
  | [], _ => none
  | (k, v) :: rest, tid => if k = tid then some v else lookupTask rest tid

/-- Association-list update for the task store: replaces the entry keyed
`tid` (dictionary assignment semantics; keys are unique). -/
def replaceTask (l : List (String × StoredTask)) (tid : String)
    (t : StoredTask) : List (String × StoredTask) :=
  match l with
  | [] => []
  | (k, v) :: rest =>
    if k = tid then (k, t) :: replaceTask rest tid t
    else (k, v) :: replaceTask rest tid t

/-- Association-list lookup for the push-notification registry. -/
def lookupPush : List (String × PushNotificationConfig) → String →
    Option PushNotificationConfig
  | [], _ => none
  | (k, v) :: rest, tid => if k = tid then some v else lookupPush rest tid

/-- Association-list set for the push-notification registry: overwrite if
present, insert if absent. -/
def setPushEntry (l : List (String × PushNotificationConfig)) (tid : String)
    (cfg : PushNotificationConfig) : List (String × PushNotificationConfig) :=
  match l with
  | [] => [(tid, cfg)]
  | (k, v) :: rest =>
    if k = tid then (k, cfg) :: rest else (k, v) :: setPushEntry rest tid cfg

/-- Embedded Python exceptions that the control flow of the embedded code
depends on. -/
inductive PyExc where
  | jsonDecode
  | pydValidation (what : String)
  | unboundLocal (name : String)
  | typeError (what : String)
  | valueError (msg : String)
  | attributeError (what : String)
  | indexError
deriving DecidableEq, Repr

/-- Task-manager state: task store, push registry, and instrumentation
logs (agent invocations, push notifications fired, status writes). -/
structure TMState where
  tasks : List (String × StoredTask) := []
  pushConfigs : List (String × PushNotificationConfig) := []
  agentCalls : List (String × String) := []
  notifications : List (String × TaskState) := []
  writeLog : List (String × TaskState) := []
deriving DecidableEq, Repr

/-- Modelled from the spec: `InMemoryTaskManager.upsert_task`
(shared/abc_task_manager.py is not under src/).  Spec 4.1 `upsert`:
creates the task if absent with state SUBMITTED and history holding the
initial message; if present, appends the message to history and leaves the
state untouched. -/
def upsertTask (tasks : List (String × StoredTask)) (p : TaskSendParams) :
    List (String × StoredTask) :=
  match lookupTask tasks p.id with
  | none =>
    (p.id,
      { id := p.id, contextId := p.sessionId
        status := { state := TaskState.submitted }
        artifacts := [], history := [p.message] }) :: tasks
  | some t => replaceTask tasks p.id { t with history := t.history ++ [p.message] }

/-- Modelled from the spec: `InMemoryTaskManager.update_store`
(shared/abc_task_manager.py is not under src/).  Spec 4.1 `updateState`:
replaces `status`, appends the new artifacts, returns the new snapshot;
fails with TaskNotFound when the id is unknown. -/
def updateStore (tasks : List (String × StoredTask)) (tid : String)
    (status : TaskStatus) (arts : Option (List Artifact)) :
    Except PyExc (List (String × StoredTask) × StoredTask) :=
  match lookupTask tasks tid with
  | none => Except.error (PyExc.valueError ("Task " ++ tid ++ " not found"))
  | some t =>
    let t2 := { t with status := status
                       artifacts := t.artifacts ++ arts.getD [] }
    Except.ok (replaceTask tasks tid t2, t2)

/-- `update_store` lifted to `TMState`, recording the status write in the
ghost `writeLog`. -/
def tmUpdateStore (st : TMState) (tid : String) (status : TaskStatus)
    (arts : Option (List Artifact)) : Except PyExc (TMState × StoredTask) :=
  match updateStore st.tasks tid status arts with
  | Except.error e => Except.error e
  | Except.ok (ts, t) =>
    Except.ok ({ st with tasks := ts
                         writeLog := st.writeLog ++ [(tid, status.state)] }, t)

/-- Modelled from the spec: `InMemoryTaskManager.append_task_history`
(shared/abc_task_manager.py is not under src/).  Spec 4.1 `get` with
`historyLimit`: truncates the returned history to the most recent N entries
without mutating the stored task. -/
def appendTaskHistory (t : StoredTask) (n : Option Nat) : StoredTask :=
  match n with
  | none => t
  | some k => { t with history := (t.history.reverse.take k).reverse }

/-- `CLIAgentTaskManager.send_task_notification`
(base_cli_task_manager.py lines 459-468): if no push-notification config is
registered for the task, do nothing; otherwise fire a best-effort
notification carrying the task snapshot (recorded in the ghost
`notifications` log; `PushNotificationSenderAuth.send_push_notification`
itself is not under src/ and per the spec never propagates failures). -/
def sendTaskNotification (st : TMState) (t : StoredTask) : TMState :=
  match lookupPush st.pushConfigs t.id with
  | none => st
  | some _ => { st with notifications := st.notifications ++ [(t.id, t.status.state)] }

/-- Outcome of one `Agent.invoke_async` call or one chunk of
`Agent.stream`: the `is_task_complete` / `require_user_input` / `content`
dictionary, or a raised exception. -/
structure AgentChunk where
  isTaskComplete : Bool
  requireUserInput : Bool
  content : String
deriving DecidableEq, Repr

/-- Result of invoking the external agent. -/
inductive AgentOutcome where
  | ok (chunk : AgentChunk)
  | exc (msg : String)
deriving DecidableEq, Repr

/-- Placeholder for the `msg_<uuid4>` default generated for
`A2AMessage.messageId` (custom_types.py line 120); no claim in scope
depends on its value. -/
def freshMessageId : String := "msg_fresh"

/-- Placeholder for the `artifact_<uuid4>` default generated for
`Artifact.artifactId` (custom_types.py line 148). -/
def freshArtifactIdDefault : String := "artifact_fresh"

/-! ## CLIAgentTaskManager (base_cli_task_manager.py) -/

/-- Modelled from the spec: `utils.new_incompatible_types_error`
(shared/utils.py is not under src/).  Per the spec's error taxonomy an
unsupported content-type is rejected with the ContentTypeNotSupported
error (-32005), wrapped in a JSON-RPC response echoing the request id. -/
def newIncompatibleTypesError (rid : RpcId) : RpcResponse :=
  { id := rid, error := some ContentTypeNotSupportedError }

/-- `CLIAgentTaskManager._validate_request` (base_cli_task_manager.py lines
237-261).  `utils.are_modalities_compatible` is not under src/ and is
passed in as the predicate `compat`.  When the push-notification URL is
missing, the source builds `InvalidParamsError(message=...)`, but
`InvalidParamsError.__init__` (custom_types.py lines 429-435) accepts only
the keyword `data`, so that call raises `TypeError` instead of returning
the intended response. -/
def validateRequest (compat : Option (List String) → List String → Bool)
    (supported : List String) (rid : RpcId) (p : TaskSendParams) :
    Except PyExc (Option RpcResponse) :=
  if compat p.acceptedOutputModes supported = false then
    Except.ok (some (newIncompatibleTypesError rid))
  else
    match p.pushNotification with
    | some cfg =>
      if cfg.url = "" then
        Except.error (PyExc.typeError
          "InvalidParamsError got an unexpected keyword argument message")
      else Except.ok none
    | none => Except.ok none

/-- `CLIAgentTaskManager.set_push_notification_info` (base_cli_task_manager.py
lines 488-499): verify ownership of the notification URL by a challenge
request; on failure return false and store nothing; on success store the
config through the base class and return true.
`PushNotificationSenderAuth.verify_push_notification_url` and the base
store (not under src/) are modelled from the spec as the `verify` oracle
and the `setPushEntry` map update. -/
def setPushNotificationInfo (verify : String → Bool)
    (cfgs : List (String × PushNotificationConfig)) (tid : String)
    (cfg : PushNotificationConfig) :
    List (String × PushNotificationConfig) × Bool :=
  if verify cfg.url then (setPushEntry cfgs tid cfg, true) else (cfgs, false)

/-- `CLIAgentTaskManager._get_user_query` (base_cli_task_manager.py lines
453-457): reads `message.parts[0]` (IndexError on an empty list) and
raises `ValueError` unless it is a `TextPart`. -/
def getUserQuery (p : TaskSendParams) : Except PyExc String :=
  match p.message.parts.head? with
  | none => Except.error PyExc.indexError
  | some (Part.text s) => Except.ok s
  | some _ => Except.error (PyExc.valueError "Only text parts are supported")

/-- `CLIAgentTaskManager._process_agent_response` (base_cli_task_manager.py
lines 427-451): builds a text part from the agent's content; when
`require_user_input` is set, writes INPUT_REQUIRED with an agent message,
otherwise writes COMPLETED with one artifact; updates the store, truncates
the returned history, fires a best-effort notification, and returns the
final Task as the JSON-RPC result. -/
def processAgentResponse (st : TMState) (rid : RpcId) (p : TaskSendParams)
    (chunk : AgentChunk) : TMState × Except PyExc RpcResponse :=
  let parts : List Part := [Part.text chunk.content]
  let status : TaskStatus :=
    if chunk.requireUserInput then
      { state := TaskState.inputRequired
        message := some { role := "agent", parts := parts, messageId := freshMessageId } }
    else { state := TaskState.completed }
  let arts : Option (List Artifact) :=
    if chunk.requireUserInput then none
    else some [{ artifactId := freshArtifactIdDefault, parts := parts }]
  match tmUpdateStore st p.id status arts with
  | Except.error e => (st, Except.error e)
  | Except.ok (st2, t) =>
    let taskResult := appendTaskHistory t p.historyLength
    let st3 := sendTaskNotification st2 t
    (st3, Except.ok { id := rid, result := some (ResultVal.taskResult taskResult) })

/-- The body of `CLIAgentTaskManager.on_send_task` after validation and push
registration (base_cli_task_manager.py lines 280-293): upsert the task, set
WORKING, notify, read the user query, invoke the agent; an exception from
the agent is re-raised as `ValueError("Error invoking agent: ...")`, not
caught. -/
def onSendTaskCore (agent : String → String → AgentOutcome) (st : TMState)
    (rid : RpcId) (p : TaskSendParams) : TMState × Except PyExc RpcResponse :=
  let st1 := { st with tasks := upsertTask st.tasks p }
  match tmUpdateStore st1 p.id { state := TaskState.working } none with
  | Except.error e => (st1, Except.error e)
  | Except.ok (st2, t) =>
    let st3 := sendTaskNotification st2 t
    match getUserQuery p with
    | Except.error e => (st3, Except.error e)
    | Except.ok q =>
      let st4 := { st3 with agentCalls := st3.agentCalls ++ [(q, p.sessionId)] }
      match agent q p.sessionId with
      | AgentOutcome.exc m =>
        (st4, Except.error (PyExc.valueError ("Error invoking agent: " ++ m)))
      | AgentOutcome.ok chunk => processAgentResponse st4 rid p chunk

/-- `CLIAgentTaskManager.on_send_task` (base_cli_task_manager.py lines
263-293): validate; register the push notification when requested, where a
failed verification leads the source to build
`SendTaskResponse(error=InvalidParamsError(message=...))`, which raises
`TypeError` (the custom `__init__` accepts only `data`); then run the core
send path. -/
def onSendTask (compat : Option (List String) → List String → Bool)
    (supported : List String) (verify : String → Bool)
    (agent : String → String → AgentOutcome) (st : TMState) (rid : RpcId)
    (p : TaskSendParams) : TMState × Except PyExc RpcResponse :=
  match validateRequest compat supported rid p with
  | Except.error e => (st, Except.error e)
  | Except.ok (some errResp) => (st, Except.ok errResp)
  | Except.ok none =>
    match p.pushNotification with
    | some cfg =>
      let reg := setPushNotificationInfo verify st.pushConfigs p.id cfg
      let st1 := { st with pushConfigs := reg.1 }
      if reg.2 = false then
        (st1, Except.error (PyExc.typeError
          "InvalidParamsError got an unexpected keyword argument message"))
      else onSendTaskCore agent st1 rid p
    | none => onSendTaskCore agent st rid p

/-- The effective `CLIAgentTaskManager.on_a2a_message_send`
(base_cli_task_manager.py lines 295-386; an earlier method of the same name
at lines 96-178 is overridden by this later definition in the class body).
Concatenates the text of the parts whose `kind` is "text", invokes the
agent with that query, and builds the response directly — no store
interaction: exceptions become a result task with FAILED status, success
becomes a COMPLETED task with one artifact or an INPUT_REQUIRED task with
an agent message.  `uuid4` fallbacks for a missing `taskId` / `contextId`
and the artifact id are the `fresh*` parameters. -/
def onA2aMessageSend (agent : String → String → AgentOutcome)
    (freshTaskId freshSessionId freshArtifactId : String) (st : TMState)
    (rid : RpcId) (m : A2AMessage) : TMState × RpcResponse :=
  let query := m.parts.foldl
    (fun acc p => match p with | Part.text s => acc ++ s | _ => acc) ""
  let taskId := m.taskId.getD freshTaskId
  let sessionId := m.contextId.getD freshSessionId
  let st1 := { st with agentCalls := st.agentCalls ++ [(query, sessionId)] }
  match agent query sessionId with
  | AgentOutcome.exc msg =>
    (st1,
      { id := rid
        result := some (ResultVal.taskResult
          { id := taskId, contextId := sessionId
            status :=
              { state := TaskState.failed
                message := some
                  { role := "agent", parts := [Part.text ("Error: " ++ msg)]
                    messageId := freshMessageId } }
            artifacts := [], history := [] }) })
  | AgentOutcome.ok chunk =>
    if chunk.isTaskComplete then
      (st1,
        { id := rid
          result := some (ResultVal.taskResult
            { id := taskId, contextId := sessionId
              status := { state := TaskState.completed }
              artifacts := [{ artifactId := freshArtifactId
                              parts := [Part.text chunk.content] }]
              history := [] }) })
    else
      (st1,
        { id := rid
          result := some (ResultVal.taskResult
            { id := taskId, contextId := sessionId
              status :=
                { state := TaskState.inputRequired
                  message := some
                    { role := "agent", parts := [Part.text chunk.content]
                      messageId := freshMessageId } }
              artifacts := [], history := [] }) })

/-! ## Streaming producer (_run_streaming_agent) -/

/-- An event enqueued for the SSE consumers of a task. -/
inductive SseEvent where
  | statusUpdate (taskId : String) (status : TaskStatus) (finalFlag : Bool)
  | artifactUpdate (taskId : String) (artifact : Artifact)
  | errorEvent (err : JSONRPCError)
deriving DecidableEq, Repr

/-- State of one streaming run: the task-manager state plus the per-task
SSE queue the producer appends to (`enqueue_events_for_sse` in the base
class, modelled from the spec as an append to the task's event queue). -/
structure StreamState where
  tm : TMState
  sseQueue : List SseEvent := []
deriving DecidableEq, Repr

/-- Required fields (fields without a default) of `TaskStatusUpdateEvent`
(custom_types.py lines 167-174): `taskId`, `contextId`, `status`. -/
def taskStatusUpdateEventRequired : List String := ["taskId", "contextId", "status"]

/-- Required fields of `TaskArtifactUpdateEvent` (custom_types.py lines
176-184): `taskId`, `contextId`, `artifact`. -/
def taskArtifactUpdateEventRequired : List String := ["taskId", "contextId", "artifact"]

/-- Keyword arguments passed when `_run_streaming_agent` constructs a
`TaskStatusUpdateEvent` (base_cli_task_manager.py lines 221-223):
`id`, `status`, `final`. -/
def streamingStatusEventKwargs : List String := ["id", "status", "final"]

/-- Keyword arguments passed when `_run_streaming_agent` constructs a
`TaskArtifactUpdateEvent` (base_cli_task_manager.py lines 214-216):
`id`, `artifact`. -/
def streamingArtifactEventKwargs : List String := ["id", "artifact"]

/-- Pydantic model construction succeeds only when every required field is
among the provided keywords (extra keywords are ignored). -/
def pydRequiredOk (required provided : List String) : Bool :=
  required.all fun f => provided.contains f

/-- Keyword parameters accepted by `InternalError.__init__`
(custom_types.py lines 438-444): only `data`. -/
def internalErrorInitKwargs : List String := ["data"]

/-- A Python call with keyword arguments succeeds only when every provided
keyword is a parameter of the callee. -/
def pyCallKwargsOk (accepted provided : List String) : Bool :=
  provided.all fun k => accepted.contains k

/-- One iteration of the `async for` loop in
`CLIAgentTaskManager._run_streaming_agent` (base_cli_task_manager.py lines
185-226): classify the chunk into WORKING / INPUT_REQUIRED / COMPLETED,
write the status (and, on completion, the artifact) to the store, fire a
notification, then construct and enqueue the artifact and status events.
Both event constructions pass the keyword `id` while the models require
`taskId` and `contextId` (custom_types.py lines 167-184), which pydantic
rejects with `ValidationError`. -/
def runStreamChunk (p : TaskSendParams) (s : StreamState) (item : AgentChunk) :
    StreamState × Except PyExc Unit :=
  let taskState :=
    if !item.isTaskComplete && !item.requireUserInput then TaskState.working
    else if item.requireUserInput then TaskState.inputRequired
    else TaskState.completed
  let endStream := item.isTaskComplete || item.requireUserInput
  let message : Option A2AMessage :=
    if taskState = TaskState.completed then none
    else some { role := "agent", parts := [Part.text item.content]
                messageId := freshMessageId }
  let artifact : Option Artifact :=
    if taskState = TaskState.completed then
      some { artifactId := freshArtifactIdDefault, parts := [Part.text item.content] }
    else none
  match tmUpdateStore s.tm p.id { state := taskState, message := message }
      (artifact.map fun a => [a]) with
  | Except.error e => (s, Except.error e)
  | Except.ok (tm2, t) =>
    let s2 : StreamState := { s with tm := sendTaskNotification tm2 t }
    match artifact with
    | some a =>
      if pydRequiredOk taskArtifactUpdateEventRequired streamingArtifactEventKwargs then
        let s3 := { s2 with sseQueue := s2.sseQueue ++ [SseEvent.artifactUpdate p.id a] }
        if pydRequiredOk taskStatusUpdateEventRequired streamingStatusEventKwargs then
          ({ s3 with sseQueue := s3.sseQueue ++
              [SseEvent.statusUpdate p.id { state := taskState, message := message } endStream] },
            Except.ok ())
        else (s3, Except.error (PyExc.pydValidation
          "TaskStatusUpdateEvent missing required fields taskId and contextId"))
      else (s2, Except.error (PyExc.pydValidation
        "TaskArtifactUpdateEvent missing required fields taskId and contextId"))
    | none =>
      if pydRequiredOk taskStatusUpdateEventRequired streamingStatusEventKwargs then
        ({ s2 with sseQueue := s2.sseQueue ++
            [SseEvent.statusUpdate p.id { state := taskState, message := message } endStream] },
          Except.ok ())
      else (s2, Except.error (PyExc.pydValidation
        "TaskStatusUpdateEvent missing required fields taskId and contextId"))

/-- The `async for` loop over the agent's stream: runs chunk after chunk
until the stream ends or an exception escapes an iteration. -/
def runStreamLoop (p : TaskSendParams) (s : StreamState) :
    List AgentChunk → StreamState × Except PyExc Unit
  | [] => (s, Except.ok ())
  | c :: rest =>
    match runStreamChunk p s c with
    | (s2, Except.ok _) => runStreamLoop p s2 rest
    | (s2, Except.error e) => (s2, Except.error e)

/-- `CLIAgentTaskManager._run_streaming_agent` (base_cli_task_manager.py
lines 180-235): read the user query, drive the agent stream, and on any
exception fall into the `except` block, which builds
`InternalError(message=...)` to enqueue as an error event — but
`InternalError.__init__` accepts only the keyword `data` (custom_types.py
lines 438-444), so the `except` block itself raises `TypeError`; the
coroutine runs as a fire-and-forget `asyncio` task, so the `TypeError`
escapes and nothing is enqueued. -/
def runStreamingAgent (agentStream : String → String → List AgentChunk)
    (p : TaskSendParams) (s : StreamState) : StreamState × Except PyExc Unit :=
  match getUserQuery p with
  | Except.error e => (s, Except.error e)
  | Except.ok q =>
    match runStreamLoop p s (agentStream q p.sessionId) with
    | (s2, Except.ok _) => (s2, Except.ok ())
    | (s2, Except.error _) =>
      if pyCallKwargsOk internalErrorInitKwargs ["message"] then
        ({ s2 with sseQueue := s2.sseQueue ++
            [SseEvent.errorEvent (InternalError none)] }, Except.ok ())
      else
        (s2, Except.error (PyExc.typeError
          "InternalError got an unexpected keyword argument message"))

/-! ## Resubscribe (on_resubscribe_to_task) -/

/-- Modelled from the spec: `InMemoryTaskManager.setup_sse_consumer`
(shared/abc_task_manager.py is not under src/).  Spec 4.2 / 4.5: for
`tasks/resubscribe` the hub attaches a consumer to an assumed-still-active
task and fails with TaskNotFound when the task is unknown or already
finalized; `activeStreams` is the set of task ids with a live producer
registration. -/
def setupSseConsumer (activeStreams : List String) (taskId : String)
    (isResubscribe : Bool) : Except String Unit :=
  if isResubscribe && !(activeStreams.contains taskId) then
    Except.error "Task not found for resubscription"
  else Except.ok ()

/-- Outcome of `on_resubscribe_to_task`: an event stream attached to the
task, or a single JSON-RPC response. -/
inductive ResubOutcome where
  | stream (taskId : String)
  | response (r : RpcResponse)
deriving DecidableEq, Repr

/-- `CLIAgentTaskManager.on_resubscribe_to_task` (base_cli_task_manager.py
lines 470-486): attach an SSE consumer with `is_resubscribe=True`; on any
exception the `except` block builds `InternalError(message=...)` for the
intended error response, but that call raises `TypeError` (the custom
`__init__` accepts only `data`), so the handler raises instead of
returning. -/
def onResubscribeToTask (activeStreams : List String) (rid : RpcId)
    (taskId : String) : Except PyExc ResubOutcome :=
  match setupSseConsumer activeStreams taskId true with
  | Except.ok _ => Except.ok (ResubOutcome.stream taskId)
  | Except.error _ =>
    if pyCallKwargsOk internalErrorInitKwargs ["message"] then
      Except.ok (ResubOutcome.response
        { id := rid, error := some (InternalError none) })
    else
      Except.error (PyExc.typeError
        "InternalError got an unexpected keyword argument message")

/-! ## A2AServer (shared/server.py) -/

/-- The raw `message` object of a `message/send` body as the manual parser
reads it (server.py lines 171-187): `role` defaults to "user", `messageId`
defaults to "auto", and only parts whose `kind` is "text" are kept.
Fields the parser never reads (`taskId`, `contextId`) are not modelled. -/
structure RawMessage where
  role : Option String := none
  parts : List Part := []
  messageId : Option String := none
deriving DecidableEq, Repr

/-- The decoded `params` member of a JSON-RPC body, shaped for one of the
parameter models of custom_types.py.  `malformedParams` stands for an
absent `params` member (`body.get('params', {})` yields the empty dict) or
a JSON object matching none of the models; `nonObjectParams` stands for a
`params` member that is present but not a JSON object (null, array,
string, number) — on those, `list(body.get('params', {}).keys())` at
server.py line 155 raises `AttributeError` before any dispatch. -/
inductive MethodParams where
  | sendParams (p : TaskSendParams)
  | queryParams (taskId : String) (histLen : Option Nat)
  | idParams (taskId : String)
  | pushParams (taskId : String) (cfg : PushNotificationConfig)
  | msgParams (m : RawMessage)
  | malformedParams
  | nonObjectParams
deriving DecidableEq, Repr

/-- A decoded JSON-RPC request body: `id` (absent when `none`), `method`,
`params`. -/
structure RequestBody where
  id : Option RpcId := none
  method : String
  params : MethodParams := MethodParams.malformedParams
deriving DecidableEq, Repr

/-- An inbound HTTP POST body: either undecodable JSON (`request.json()`
raises `json.decoder.JSONDecodeError`) or a decoded JSON object. -/
inductive HttpBody where
  | invalidJson
  | jsonBody (b : RequestBody)
deriving DecidableEq, Repr

/-- `body.get('params', {}).get('message', {})` with defaults, as the
manual message/send parser reads it: an absent `params`, or an object
without a usable `message` object, yields the all-default message.
(Params that are present but not a JSON object never reach this parser:
line 155 raises `AttributeError` on them first.) -/
def rawMessageOf : MethodParams → RawMessage
  | MethodParams.msgParams m => m
  | _ => {}

/-- A parsed request, the result of `A2ARequest.validate_python` over the
discriminated union of the nine request models (custom_types.py lines
383-398). -/
inductive ParsedRequest where
  | messageSend (m : RawMessage)
  | messageStream (m : RawMessage)
  | getTask (taskId : String) (histLen : Option Nat)
  | cancelTask (taskId : String)
  | setPush (taskId : String) (cfg : PushNotificationConfig)
  | getPush (taskId : String)
  | resubscribe (taskId : String) (histLen : Option Nat)
  | sendTask (p : TaskSendParams)
  | sendTaskStreaming (p : TaskSendParams)
deriving DecidableEq, Repr

/-- The nine `method` literals of the `A2ARequest` discriminated union. -/
def knownMethods : List String :=
  ["message/send", "message/stream", "tasks/get", "tasks/cancel",
   "tasks/pushNotification/set", "tasks/pushNotification/get",
   "tasks/resubscribe", "tasks/send", "tasks/sendSubscribe"]

/-- The `pydantic.ValidationError` raised when no variant of the
`A2ARequest` union matches a body. -/
def validationFail (method : String) : Except PyExc ParsedRequest :=
  Except.error (PyExc.pydValidation
    ("no variant of A2ARequest matched method " ++ method))

/-- `A2ARequest.validate_python` (custom_types.py lines 383-398):
discriminates on the `method` literal, then requires the params to match
that request model's shape; any other body raises
`pydantic.ValidationError`. -/
def validateA2ARequest (method : String) (params : MethodParams) :
    Except PyExc ParsedRequest :=
  if method = "message/send" then
    match params with
    | MethodParams.msgParams m => Except.ok (ParsedRequest.messageSend m)
    | _ => validationFail method
  else if method = "message/stream" then
    match params with
    | MethodParams.msgParams m => Except.ok (ParsedRequest.messageStream m)
    | _ => validationFail method
  else if method = "tasks/get" then
    match params with
    | MethodParams.queryParams t h => Except.ok (ParsedRequest.getTask t h)
    | _ => validationFail method
  else if method = "tasks/cancel" then
    match params with
    | MethodParams.idParams t => Except.ok (ParsedRequest.cancelTask t)
    | _ => validationFail method
  else if method = "tasks/pushNotification/set" then
    match params with
    | MethodParams.pushParams t c => Except.ok (ParsedRequest.setPush t c)
    | _ => validationFail method
  else if method = "tasks/pushNotification/get" then
    match params with
    | MethodParams.idParams t => Except.ok (ParsedRequest.getPush t)
    | _ => validationFail method
  else if method = "tasks/resubscribe" then
    match params with
    | MethodParams.queryParams t h => Except.ok (ParsedRequest.resubscribe t h)
    | _ => validationFail method
  else if method = "tasks/send" then
    match params with
    | MethodParams.sendParams p => Except.ok (ParsedRequest.sendTask p)
    | _ => validationFail method
  else if method = "tasks/sendSubscribe" then
    match params with
    | MethodParams.sendParams p => Except.ok (ParsedRequest.sendTaskStreaming p)
    | _ => validationFail method
  else validationFail method

/-- `A2AServer._handle_exception` (server.py lines 268-278):
`JSONDecodeError` becomes the -32700 parse error, `pydantic.ValidationError`
becomes the -32600 invalid-request error, everything else the -32603
internal error; the response id is always `None` (serialized away by
`exclude_none`), and the HTTP status is 400. -/
def handleException (e : PyExc) : RpcResponse :=
  match e with
  | PyExc.jsonDecode => { id := RpcId.nullId, error := some JSONParseError }
  | PyExc.pydValidation d =>
    { id := RpcId.nullId, error := some (InvalidRequestError (some d)) }
  | _ => { id := RpcId.nullId, error := some (InternalError none) }

/-- The manual message/send parser (server.py lines 166-198): keeps only the
parts whose `kind` is "text", defaults `role` to "user" and `messageId` to
"auto", and builds the `A2AMessage`; pydantic rejects the message when the
role is not the literal "user" or "agent".  The request id defaults to the
string "auto" when the body has none (`body.get('id', 'auto')`). -/
def manualParseMessageSend (b : RequestBody) :
    Except String (RpcId × A2AMessage) :=
  let raw := rawMessageOf b.params
  let role := raw.role.getD "user"
  if role = "user" ∨ role = "agent" then
    Except.ok
      (b.id.getD (RpcId.strId "auto"),
        { role := role
          parts := raw.parts.filter fun p =>
            match p with | Part.text _ => true | _ => false
          messageId := raw.messageId.getD "auto" })
  else
    Except.error ("validation error for A2AMessage role " ++ role)

/-- The external collaborators `_process_request` needs: the agent, the
fresh uuid strings drawn during the request, and the task-manager state. -/
structure ServerDeps where
  agent : String → String → AgentOutcome
  freshTaskId : String := "uuid-task"
  freshSessionId : String := "uuid-session"
  freshArtifactId : String := "uuid-artifact"
  st : TMState := {}

/-- `A2AServer._process_request` (server.py lines 148-266) as a function
from an HTTP body to HTTP status and JSON-RPC response.

Before any dispatch, line 155 logs
`list(body.get('params', {}).keys())`: when the body carries a `params`
member that is not a JSON object (null, array, string, number), this
raises `AttributeError`, the outer `except` hands it to
`_handle_exception`, and the caller gets the internal error with a null
id — whatever the method, including message/send.

The `from shared.custom_types import ...` statements at lines 168 and 204
sit inside the `method == 'message/send'` branch, which makes the imported
names — among them `A2AMessageSendRequest`, `InvalidRequestError` and
`JSONRPCResponse` — local variables of the whole function (Python scoping:
a name assigned anywhere in a function body is local throughout).  On
every path where that branch did not run, referencing them raises
`UnboundLocalError`, which the outer `except` hands to
`_handle_exception`:

* an unparseable non-message/send body (lines 218-224) dies constructing
  its own `InvalidRequestError` reply;
* a successfully parsed non-message/send request dies at line 228 on
  `isinstance(json_rpc_request, A2AMessageSendRequest)`, before any
  task-manager handler is invoked.

So only the `message/send` branch ever reaches a handler. -/
def processRequest (d : ServerDeps) (body : HttpBody) : Nat × RpcResponse :=
  match body with
  | HttpBody.invalidJson => (400, handleException PyExc.jsonDecode)
  | HttpBody.jsonBody b =>
    if b.params = MethodParams.nonObjectParams then
      (400, handleException (PyExc.attributeError
        "params object has no attribute keys"))
    else if b.method = "message/send" then
      match manualParseMessageSend b with
      | Except.error emsg =>
        (400, { id := b.id.getD RpcId.nullId
                error := some (InvalidRequestError (some emsg)) })
      | Except.ok (reqId, msg) =>
        let out := onA2aMessageSend d.agent d.freshTaskId d.freshSessionId
          d.freshArtifactId d.st reqId msg
        (200, out.2)
    else
      match validateA2ARequest b.method b.params with
      | Except.error _ =>
        (400, handleException (PyExc.unboundLocal "JSONRPCResponse"))
      | Except.ok _ =>
        (400, handleException (PyExc.unboundLocal "A2AMessageSendRequest"))

/-! ## Store lemmas -/

theorem lookupTask_replaceTask_self (l : List (String × StoredTask))
    (k : String) (t : StoredTask) (h : (lookupTask l k).isSome = true) :
    lookupTask (replaceTask l k t) k = some t := by
  induction l with
  | nil => simp [lookupTask] at h
  | cons hd tl ih =>
    obtain ⟨k2, v⟩ := hd
    by_cases hk : k2 = k
    · simp [replaceTask, lookupTask, hk]
    · simp [replaceTask, lookupTask, hk] at h ⊢
      exact ih h

theorem lookupTask_upsertTask_isSome (tasks : List (String × StoredTask))
    (p : TaskSendParams) : (lookupTask (upsertTask tasks p) p.id).isSome = true := by
  unfold upsertTask
  cases hl : lookupTask tasks p.id with
  | none => simp [lookupTask]
  | some t =>
    rw [lookupTask_replaceTask_self tasks p.id _ (by simp [hl])]
    simp

theorem sendTaskNotification_tasks (st : TMState) (t : StoredTask) :
    (sendTaskNotification st t).tasks = st.tasks := by
  unfold sendTaskNotification
  cases lookupPush st.pushConfigs t.id <;> simp

theorem sendTaskNotification_writeLog (st : TMState) (t : StoredTask) :
    (sendTaskNotification st t).writeLog = st.writeLog := by
  unfold sendTaskNotification
  cases lookupPush st.pushConfigs t.id <;> simp

theorem sendTaskNotification_agentCalls (st : TMState) (t : StoredTask) :
    (sendTaskNotification st t).agentCalls = st.agentCalls := by
  unfold sendTaskNotification
  cases lookupPush st.pushConfigs t.id <;> simp

theorem sendTaskNotification_pushConfigs (st : TMState) (t : StoredTask) :
    (sendTaskNotification st t).pushConfigs = st.pushConfigs := by
  unfold sendTaskNotification
  cases lookupPush st.pushConfigs t.id <;> simp

/-! ## Claim C4 -/

/-- C4: when the verification challenge against `config.url` fails,
`set_push_notification_info` returns false and stores nothing, so a
lookup of the push config for that task finds exactly what it found
before — in particular, a config that was absent stays absent. -/
theorem c4_push_registration_fail_closed (verify : String → Bool)
    (cfgs : List (String × PushNotificationConfig)) (tid : String)
    (cfg : PushNotificationConfig) (h : verify cfg.url = false) :
    (setPushNotificationInfo verify cfgs tid cfg).2 = false ∧
    (setPushNotificationInfo verify cfgs tid cfg).1 = cfgs ∧
    (lookupPush cfgs tid = none →
      lookupPush (setPushNotificationInfo verify cfgs tid cfg).1 tid = none) := by
  unfold setPushNotificationInfo
  refine ⟨?_, ?_, ?_⟩ <;> simp [h]

/-- Witness for C4: a verifier that rejects the challenge, an empty
registry, and a concrete config. -/
theorem c4_push_registration_fail_closed_witness :
    (setPushNotificationInfo (fun _ => false) [] "T1"
      { url := "http://callback.example" }).2 = false ∧
    (setPushNotificationInfo (fun _ => false) [] "T1"
      { url := "http://callback.example" }).1 = [] ∧
    (lookupPush [] "T1" = none →
      lookupPush (setPushNotificationInfo (fun _ => false) [] "T1"
        { url := "http://callback.example" }).1 "T1" = none) :=
  c4_push_registration_fail_closed (fun _ => false) [] "T1"
    { url := "http://callback.example" } rfl

/-! ## Claim C10 -/

/-- The query a `message/send` request should produce, phrased as the spec
reads: the in-order concatenation of the `text` fields of the parts whose
kind is "text"; file and data parts contribute nothing. -/
def textConcatSpec (parts : List Part) : String :=
  String.join (parts.filterMap fun p =>
    match p with | Part.text s => some s | _ => none)

theorem strJoin_cons_append (s : String) (l : List String) :
    String.join (s :: l) = s ++ String.join l := by
  have hoist : ∀ (l2 : List String) (a : String),
      l2.foldl (fun r s2 => r ++ s2) a = a ++ l2.foldl (fun r s2 => r ++ s2) "" := by
    intro l2
    induction l2 with
    | nil => intro a; simp
    | cons h2 t2 ih =>
      intro a
      simp only [List.foldl_cons]
      rw [ih (a ++ h2), ih ("" ++ h2)]
      simp [String.append_assoc]
  simp only [String.join, List.foldl_cons]
  rw [hoist l ("" ++ s)]
  simp

theorem foldl_textAppend_acc (parts : List Part) (acc : String) :
    parts.foldl (fun a p => match p with | Part.text s => a ++ s | _ => a) acc =
      acc ++ textConcatSpec parts := by
  induction parts generalizing acc with
  | nil => simp [textConcatSpec, String.join]
  | cons hd tl ih =>
    cases hd with
    | text s =>
      simp only [List.foldl_cons, textConcatSpec, List.filterMap_cons]
      rw [ih (acc ++ s)]
      simp only [textConcatSpec]
      rw [strJoin_cons_append]
      simp [String.append_assoc]
    | file n => simp [textConcatSpec, List.filterMap_cons, ih]
    | data d => simp [textConcatSpec, List.filterMap_cons, ih]

/-- C10: the query string `on_a2a_message_send` passes to
`Agent.invoke_async` is exactly the in-order concatenation of the text
fields of the message parts whose kind is "text"; file and data parts
contribute nothing. -/
theorem c10_query_is_text_concat (agent : String → String → AgentOutcome)
    (ftid fsid faid : String) (st : TMState) (rid : RpcId) (m : A2AMessage) :
    (onA2aMessageSend agent ftid fsid faid st rid m).1.agentCalls =
      st.agentCalls ++ [(textConcatSpec m.parts, m.contextId.getD fsid)] := by
  unfold onA2aMessageSend
  rw [foldl_textAppend_acc m.parts ""]
  rw [show "" ++ textConcatSpec m.parts = textConcatSpec m.parts from by simp]
  cases ha : agent (textConcatSpec m.parts) (m.contextId.getD fsid) with
  | exc msg => simp [ha]
  | ok chunk => cases hc : chunk.isTaskComplete <;> simp [ha, hc]

/-! ## Server lemmas -/

/-- Agent stub used to instantiate `ServerDeps` in closed theorems. -/
def stubAgent : String → String → AgentOutcome :=
  fun _ _ => AgentOutcome.ok
    { isTaskComplete := true, requireUserInput := false, content := "ok" }

theorem validateA2ARequest_unknown (method : String) (params : MethodParams)
    (h : method ∉ knownMethods) :
    validateA2ARequest method params =
      Except.error (PyExc.pydValidation
        ("no variant of A2ARequest matched method " ++ method)) := by
  simp only [knownMethods, List.mem_cons, List.not_mem_nil, or_false, not_or] at h
  obtain ⟨h1, h2, h3, h4, h5, h6, h7, h8, h9⟩ := h
  simp [validateA2ARequest, validationFail, h1, h2, h3, h4, h5, h6, h7, h8, h9]

theorem onA2aMessageSend_response_id (agent : String → String → AgentOutcome)
    (ftid fsid faid : String) (st : TMState) (rid : RpcId) (m : A2AMessage) :
    (onA2aMessageSend agent ftid fsid faid st rid m).2.id = rid := by
  unfold onA2aMessageSend
  cases ha : agent (m.parts.foldl
      (fun acc p => match p with | Part.text s => acc ++ s | _ => acc) "")
      (m.contextId.getD fsid) with
  | exc msg => simp [ha]
  | ok chunk => cases hc : chunk.isTaskComplete <;> simp [ha, hc]

theorem manualParseMessageSend_ok_id (b : RequestBody) (r : RpcId)
    (m : A2AMessage) (h : manualParseMessageSend b = Except.ok (r, m)) :
    r = b.id.getD (RpcId.strId "auto") := by
  by_cases hrole : ((rawMessageOf b.params).role.getD "user" = "user" ∨
      (rawMessageOf b.params).role.getD "user" = "agent")
  · simp [manualParseMessageSend, hrole] at h
    exact h.1.symm
  · simp [manualParseMessageSend, hrole] at h

/-! ## Claim C2 -/

/-- C2 counterexample: a well-formed request with method
"tasks/doesNotExist" is answered with error code -32603 (internal error),
not -32601 (method not found): the discriminated-union parse raises
`ValidationError`, the except-branch reply itself raises
`UnboundLocalError` (`JSONRPCResponse` is a function-local name bound only
in the message/send branch), and `_handle_exception` converts that to the
internal error. -/
theorem c2_unknown_method_counterexample :
    ((processRequest { agent := stubAgent }
      (HttpBody.jsonBody { id := some (RpcId.strId "1")
                           method := "tasks/doesNotExist" })).2.error.map
        JSONRPCError.code) = some (-32603) ∧
    ((-32603 : Int) = -32601) = False := by
  constructor
  · rfl
  · simp

/-- C2 amended: for every well-formed JSON-RPC request whose method is not
one of the nine supported method names, the server's response is a
JSON-RPC error with code -32603 (internal error) and a null id — not the
-32601 method-not-found error (whose constructor exists in custom_types.py
but is never used): the failing union parse is caught, but the reply
construction dies on an unbound local and falls to `_handle_exception`. -/
theorem c2_amended_unknown_method (d : ServerDeps) (i : Option RpcId)
    (method : String) (params : MethodParams) (h : method ∉ knownMethods) :
    processRequest d
        (HttpBody.jsonBody { id := i, method := method, params := params }) =
      (400, { id := RpcId.nullId, error := some (InternalError none) }) := by
  have hm : ¬ method = "message/send" := by
    intro he
    exact h (by rw [he]; simp [knownMethods])
  unfold processRequest
  by_cases hp : params = MethodParams.nonObjectParams
  · simp only [hp, if_pos]
    rfl
  · simp only [if_neg hp, if_neg hm]
    rw [validateA2ARequest_unknown method params h]
    rfl

/-- Witness for C2 at the concrete unknown method of the spec's
Scenario C. -/
theorem c2_amended_unknown_method_witness :
    processRequest { agent := stubAgent }
        (HttpBody.jsonBody { id := some (RpcId.strId "1")
                             method := "tasks/doesNotExist" }) =
      (400, { id := RpcId.nullId, error := some (InternalError none) }) :=
  c2_amended_unknown_method { agent := stubAgent } (some (RpcId.strId "1"))
    "tasks/doesNotExist" MethodParams.malformedParams (by decide)

/-! ## Claim C7 -/

/-- C7 counterexample: two well-formed requests whose JSON-RPC id is 42
are answered with a null response id although neither is a parse failure —
a `tasks/get` request (the dispatch dies on the unbound local
`A2AMessageSendRequest`) and a `message/send` request whose `params`
member is null (line 155's unconditional `body.get('params', {}).keys()`
logging raises `AttributeError`); `_handle_exception` always answers with
`id=None`. -/
theorem c7_id_echo_counterexample :
    (processRequest { agent := stubAgent }
      (HttpBody.jsonBody { id := some (RpcId.strId "42"), method := "tasks/get"
                           params := MethodParams.queryParams "T1" none })).2.id =
      RpcId.nullId ∧
    (processRequest { agent := stubAgent }
      (HttpBody.jsonBody { id := some (RpcId.numId 42), method := "message/send"
                           params := MethodParams.nonObjectParams })).2.id =
      RpcId.nullId ∧
    (RpcId.nullId = RpcId.strId "42") = False ∧
    (RpcId.nullId = RpcId.numId 42) = False := by
  refine ⟨rfl, rfl, by simp, by simp⟩

/-- C7 amended: the response id equals the request id only on the
message/send path whose `params` member decodes to a JSON object or is
absent (both on success and on the manual-parse failure reply).  A null id
is returned not only for pure JSON parse failures but also for every
non-message/send request and for every request whose `params` member is
present but not a JSON object: the unconditional params logging at
server.py line 155, the except-branch reply, and the isinstance dispatch
all raise on those paths, and `_handle_exception` always answers with a
null id. -/
theorem c7_amended_id_echo (d : ServerDeps) (b : RequestBody) :
    (b.method = "message/send" → b.params ≠ MethodParams.nonObjectParams →
      ∀ x : RpcId, b.id = some x →
      (processRequest d (HttpBody.jsonBody b)).2.id = x) ∧
    (¬ b.method = "message/send" →
      (processRequest d (HttpBody.jsonBody b)).2.id = RpcId.nullId) ∧
    (b.params = MethodParams.nonObjectParams →
      (processRequest d (HttpBody.jsonBody b)).2.id = RpcId.nullId) ∧
    (processRequest d HttpBody.invalidJson).2.id = RpcId.nullId := by
  refine ⟨?_, ?_, ?_, rfl⟩
  · intro hm hp x hx
    unfold processRequest
    simp only [if_neg hp, hm, if_pos]
    cases hmp : manualParseMessageSend b with
    | error e => simp [hmp, hx]
    | ok pr =>
      obtain ⟨r, msg⟩ := pr
      have hr := manualParseMessageSend_ok_id b r msg hmp
      simp [hmp, onA2aMessageSend_response_id, hr, hx]
  · intro hm
    unfold processRequest
    by_cases hp : b.params = MethodParams.nonObjectParams
    · simp [hp, handleException]
    · simp only [if_neg hp, if_neg hm]
      cases hv : validateA2ARequest b.method b.params <;>
        simp [hv, handleException]
  · intro hp
    unfold processRequest
    simp [hp, handleException]

/-- Witness for C7's amended claim: a message/send request with object
params and id 7 is echoed; a tasks/cancel request with id 8 and a
message/send request with null params and id 9 are answered with a null
id. -/
theorem c7_amended_id_echo_witness :
    (processRequest { agent := stubAgent }
      (HttpBody.jsonBody { id := some (RpcId.numId 7), method := "message/send"
                           params := MethodParams.msgParams
                             { role := some "user", parts := [Part.text "hi"] } })).2.id =
      RpcId.numId 7 ∧
    (processRequest { agent := stubAgent }
      (HttpBody.jsonBody { id := some (RpcId.numId 8), method := "tasks/cancel"
                           params := MethodParams.idParams "T1" })).2.id =
      RpcId.nullId ∧
    (processRequest { agent := stubAgent }
      (HttpBody.jsonBody { id := some (RpcId.numId 9), method := "message/send"
                           params := MethodParams.nonObjectParams })).2.id =
      RpcId.nullId :=
  ⟨(c7_amended_id_echo { agent := stubAgent }
      { id := some (RpcId.numId 7), method := "message/send"
        params := MethodParams.msgParams
                  { role := some "user", parts := [Part.text "hi"] } }).1
      rfl (by decide) (RpcId.numId 7) rfl,
   (c7_amended_id_echo { agent := stubAgent }
      { id := some (RpcId.numId 8), method := "tasks/cancel"
        params := MethodParams.idParams "T1" }).2.1 (by decide),
   (c7_amended_id_echo { agent := stubAgent }
      { id := some (RpcId.numId 9), method := "message/send"
        params := MethodParams.nonObjectParams }).2.2.1 rfl⟩

/-! ## Claim C8 -/

/-- C8 counterexample: a `tasks/resubscribe` request for a task id that was
never created is answered with the generic internal error (-32603, message
"Internal server error"), which carries no task-not-found indication, and
not with the -32001 TaskNotFound error; the handler itself, given the
TaskNotFound failure from the hub, raises `TypeError` building its reply
instead of returning a task-not-found response. -/
theorem c8_resubscribe_counterexample :
    (processRequest { agent := stubAgent }
      (HttpBody.jsonBody { id := some (RpcId.strId "5"), method := "tasks/resubscribe"
                           params := MethodParams.queryParams "never-created" none })).2.error =
      some (InternalError none) ∧
    ((InternalError none).code = (TaskNotFoundError (some "never-created")).code) = False ∧
    onResubscribeToTask [] (RpcId.strId "5") "never-created" =
      Except.error (PyExc.typeError
        "InternalError got an unexpected keyword argument message") := by
  refine ⟨rfl, by simp [InternalError, TaskNotFoundError], rfl⟩

/-- C8 amended: a `tasks/resubscribe` request for an unknown (or already
finalized) task id neither crashes nor hangs — both layers produce a
value — but the JSON-RPC error returned is the generic internal error
(-32603) with a null id: the handler's except block raises `TypeError`
building `InternalError(message=...)`, and through the shared router the
dispatch dies even earlier on an unbound local; `_handle_exception`
converts either exception to the internal error. -/
theorem c8_amended_resubscribe (activeStreams : List String) (rid : RpcId)
    (taskId : String) (h : activeStreams.contains taskId = false)
    (d : ServerDeps) (i : Option RpcId) (histLen : Option Nat) :
    onResubscribeToTask activeStreams rid taskId =
      Except.error (PyExc.typeError
        "InternalError got an unexpected keyword argument message") ∧
    handleException (PyExc.typeError
        "InternalError got an unexpected keyword argument message") =
      { id := RpcId.nullId, error := some (InternalError none) } ∧
    processRequest d (HttpBody.jsonBody { id := i, method := "tasks/resubscribe"
                                          params := MethodParams.queryParams taskId histLen }) =
      (400, { id := RpcId.nullId, error := some (InternalError none) }) := by
  refine ⟨?_, rfl, rfl⟩
  have h2 : taskId ∉ activeStreams := by simpa using h
  simp [onResubscribeToTask, setupSseConsumer, pyCallKwargsOk,
    internalErrorInitKwargs, h2]

/-- Witness for C8's amended claim: no active stream, task id never
created. -/
theorem c8_amended_resubscribe_witness :
    onResubscribeToTask [] (RpcId.strId "9") "never" =
      Except.error (PyExc.typeError
        "InternalError got an unexpected keyword argument message") ∧
    processRequest { agent := stubAgent }
        (HttpBody.jsonBody { id := some (RpcId.strId "9")
                             method := "tasks/resubscribe"
                             params := MethodParams.queryParams "never" none }) =
      (400, { id := RpcId.nullId, error := some (InternalError none) }) :=
  ⟨(c8_amended_resubscribe [] (RpcId.strId "9") "never" rfl
      { agent := stubAgent } (some (RpcId.strId "9")) none).1,
   (c8_amended_resubscribe [] (RpcId.strId "9") "never" rfl
      { agent := stubAgent } (some (RpcId.strId "9")) none).2.2⟩

/-! ## Claim C3 -/

/-- The spec's Scenario B send parameters: task T2 with a one-part text
message. -/
def scenarioBParams : TaskSendParams :=
  { id := "T2", sessionId := "S2"
    message := { role := "user", parts := [Part.text "go"], messageId := "m2" } }

/-- The spec's Scenario B agent stream: two chunks with
`is_task_complete=false, require_user_input=false` followed by one chunk
with `is_task_complete=true`. -/
def scenarioBChunks : List AgentChunk :=
  [{ isTaskComplete := false, requireUserInput := false, content := "w1" },
   { isTaskComplete := false, requireUserInput := false, content := "w2" },
   { isTaskComplete := true, requireUserInput := false, content := "done" }]

/-- C3, evaluated at the failing input: the event-construction keywords at
the call sites of `_run_streaming_agent` do not cover the required fields
of the event models, so the very first chunk raises `ValidationError`
constructing `TaskStatusUpdateEvent(id=...)`; the except block then raises
`TypeError` building `InternalError(message=...)`.  The subscriber's queue
stays empty — it receives neither the two `final=false` status events nor
the artifact event nor the `final=true` status event the claim describes —
and the store shows only the first WORKING write. -/
theorem c3_streaming_events_never_constructed :
    pydRequiredOk taskStatusUpdateEventRequired streamingStatusEventKwargs = false ∧
    pydRequiredOk taskArtifactUpdateEventRequired streamingArtifactEventKwargs = false ∧
    (runStreamingAgent (fun _ _ => scenarioBChunks) scenarioBParams
      { tm := { tasks := upsertTask [] scenarioBParams } }).1.sseQueue = [] ∧
    (runStreamingAgent (fun _ _ => scenarioBChunks) scenarioBParams
      { tm := { tasks := upsertTask [] scenarioBParams } }).2 =
      Except.error (PyExc.typeError
        "InternalError got an unexpected keyword argument message") ∧
    (runStreamingAgent (fun _ _ => scenarioBChunks) scenarioBParams
      { tm := { tasks := upsertTask [] scenarioBParams } }).1.tm.writeLog =
      [("T2", TaskState.working)] := by
  refine ⟨rfl, rfl, rfl, rfl, rfl⟩

/-! ## Claim C1 -/

/-- An agent whose invocation raises an exception with the given text. -/
def raisingAgent (msg : String) : String → String → AgentOutcome :=
  fun _ _ => AgentOutcome.exc msg

/-- Send parameters used by the concrete C1 and C5 theorems. -/
def sampleSendParams : TaskSendParams :=
  { id := "T1", sessionId := "S1"
    message := { role := "user", parts := [Part.text "Hello"], messageId := "m1" } }

/-- C1 counterexample: for a `tasks/send` request whose agent invocation
raises, the exception is not caught at the TaskLifecycle layer — it is
re-raised as `ValueError` out of `on_send_task` — and the stored task is
left in WORKING, not transitioned to the terminal FAILED state the claim
requires. -/
theorem c1_tasks_send_counterexample :
    (onSendTask (fun _ _ => true) [] (fun _ => true) (raisingAgent "boom") {}
      (RpcId.numId 5) sampleSendParams).2 =
      Except.error (PyExc.valueError "Error invoking agent: boom") ∧
    ((lookupTask (onSendTask (fun _ _ => true) [] (fun _ => true)
        (raisingAgent "boom") {} (RpcId.numId 5) sampleSendParams).1.tasks
        "T1").map fun t => t.status.state) = some TaskState.working ∧
    (TaskState.working = TaskState.failed) = False := by
  refine ⟨rfl, rfl, by simp⟩

theorem onSendTask_no_push (compat : Option (List String) → List String → Bool)
    (supported : List String) (verify : String → Bool)
    (agent : String → String → AgentOutcome) (st : TMState) (rid : RpcId)
    (p : TaskSendParams) (h1 : compat p.acceptedOutputModes supported = true)
    (h2 : p.pushNotification = none) :
    onSendTask compat supported verify agent st rid p =
      onSendTaskCore agent st rid p := by
  unfold onSendTask validateRequest
  simp [h1, h2]

theorem onSendTaskCore_agent_exc (agent : String → String → AgentOutcome)
    (st : TMState) (rid : RpcId) (p : TaskSendParams) (q : String)
    (rest : List Part) (m : String)
    (h3 : p.message.parts = Part.text q :: rest)
    (ha : agent q p.sessionId = AgentOutcome.exc m) :
    (onSendTaskCore agent st rid p).2 =
      Except.error (PyExc.valueError ("Error invoking agent: " ++ m)) ∧
    ((lookupTask (onSendTaskCore agent st rid p).1.tasks p.id).map
      fun t => t.status.state) = some TaskState.working ∧
    (onSendTaskCore agent st rid p).1.agentCalls =
      st.agentCalls ++ [(q, p.sessionId)] := by
  obtain ⟨t0, ht0⟩ :=
    Option.isSome_iff_exists.mp (lookupTask_upsertTask_isSome st.tasks p)
  have hq : getUserQuery p = Except.ok q := by simp [getUserQuery, h3]
  unfold onSendTaskCore tmUpdateStore updateStore
  simp only [ht0, hq, ha]
  refine ⟨trivial, ?_, ?_⟩
  · rw [sendTaskNotification_tasks]
    rw [lookupTask_replaceTask_self _ _ _ (by simp [ht0])]
    rfl
  · rw [sendTaskNotification_agentCalls]

theorem onSendTaskCore_agent_ok (agent : String → String → AgentOutcome)
    (st : TMState) (rid : RpcId) (p : TaskSendParams) (q : String)
    (rest : List Part) (chunk : AgentChunk)
    (h3 : p.message.parts = Part.text q :: rest)
    (ha : agent q p.sessionId = AgentOutcome.ok chunk) :
    ∃ t : StoredTask,
      (onSendTaskCore agent st rid p).2 = Except.ok
        { id := rid
          result := some (ResultVal.taskResult (appendTaskHistory t p.historyLength)) } ∧
      lookupTask (onSendTaskCore agent st rid p).1.tasks p.id = some t ∧
      t.status = (if chunk.requireUserInput then
        { state := TaskState.inputRequired
          message := some { role := "agent", parts := [Part.text chunk.content]
                            messageId := freshMessageId } }
        else { state := TaskState.completed }) ∧
      (chunk.requireUserInput = false → ∃ pre : List Artifact,
        t.artifacts = pre ++
          [{ artifactId := freshArtifactIdDefault, parts := [Part.text chunk.content] }]) ∧
      (onSendTaskCore agent st rid p).1.writeLog =
        st.writeLog ++ [(p.id, TaskState.working), (p.id, t.status.state)] ∧
      (onSendTaskCore agent st rid p).1.agentCalls =
        st.agentCalls ++ [(q, p.sessionId)] := by
  obtain ⟨t0, ht0⟩ :=
    Option.isSome_iff_exists.mp (lookupTask_upsertTask_isSome st.tasks p)
  have hq : getUserQuery p = Except.ok q := by simp [getUserQuery, h3]
  have hsome : (lookupTask (upsertTask st.tasks p) p.id).isSome = true := by
    simp [ht0]
  cases hru : chunk.requireUserInput
  · have hl1 : lookupTask (replaceTask (upsertTask st.tasks p) p.id
        { id := t0.id, contextId := t0.contextId
          status := { state := TaskState.working, message := none }
          artifacts := t0.artifacts, history := t0.history }) p.id =
        some { id := t0.id, contextId := t0.contextId
               status := { state := TaskState.working, message := none }
               artifacts := t0.artifacts, history := t0.history } :=
      lookupTask_replaceTask_self _ _ _ hsome
    have hs1 : (lookupTask (replaceTask (upsertTask st.tasks p) p.id
        { id := t0.id, contextId := t0.contextId
          status := { state := TaskState.working, message := none }
          artifacts := t0.artifacts, history := t0.history }) p.id).isSome = true := by
      rw [hl1]; rfl
    have hl2 := lookupTask_replaceTask_self _ p.id
      { id := t0.id, contextId := t0.contextId
        status := { state := TaskState.completed, message := none }
        artifacts := t0.artifacts ++
          [{ artifactId := freshArtifactIdDefault, parts := [Part.text chunk.content] }]
        history := t0.history } hs1
    refine ⟨{ id := t0.id, contextId := t0.contextId
              status := { state := TaskState.completed, message := none }
              artifacts := t0.artifacts ++
                [{ artifactId := freshArtifactIdDefault, parts := [Part.text chunk.content] }]
              history := t0.history }, ?_, ?_, ?_, ?_, ?_, ?_⟩
    all_goals try simp only [onSendTaskCore, processAgentResponse, tmUpdateStore,
      updateStore, ht0, hq, ha, hru, Option.getD_none, Option.getD_some,
      List.append_nil, sendTaskNotification_tasks, sendTaskNotification_writeLog,
      sendTaskNotification_agentCalls, sendTaskNotification_pushConfigs,
      Bool.false_eq_true, if_false, hl1, hl2]
    all_goals first
      | rfl
      | (intro _; exact ⟨t0.artifacts, rfl⟩)
      | simp [List.append_assoc]
  · have hl1 : lookupTask (replaceTask (upsertTask st.tasks p) p.id
        { id := t0.id, contextId := t0.contextId
          status := { state := TaskState.working, message := none }
          artifacts := t0.artifacts, history := t0.history }) p.id =
        some { id := t0.id, contextId := t0.contextId
               status := { state := TaskState.working, message := none }
               artifacts := t0.artifacts, history := t0.history } :=
      lookupTask_replaceTask_self _ _ _ hsome
    have hs1 : (lookupTask (replaceTask (upsertTask st.tasks p) p.id
        { id := t0.id, contextId := t0.contextId
          status := { state := TaskState.working, message := none }
          artifacts := t0.artifacts, history := t0.history }) p.id).isSome = true := by
      rw [hl1]; rfl
    have hl2 := lookupTask_replaceTask_self _ p.id
      { id := t0.id, contextId := t0.contextId
        status := { state := TaskState.inputRequired
                    message := some { role := "agent", parts := [Part.text chunk.content]
                                      messageId := freshMessageId } }
        artifacts := t0.artifacts, history := t0.history } hs1
    refine ⟨{ id := t0.id, contextId := t0.contextId
              status := { state := TaskState.inputRequired
                          message := some { role := "agent"
                                            parts := [Part.text chunk.content]
                                            messageId := freshMessageId } }
              artifacts := t0.artifacts, history := t0.history }, ?_, ?_, ?_, ?_, ?_, ?_⟩
    all_goals try simp only [onSendTaskCore, processAgentResponse, tmUpdateStore,
      updateStore, ht0, hq, ha, hru, Option.getD_none, Option.getD_some,
      List.append_nil, sendTaskNotification_tasks, sendTaskNotification_writeLog,
      sendTaskNotification_agentCalls, sendTaskNotification_pushConfigs,
      if_true, hl1, hl2]
    all_goals first
      | rfl
      | (intro hc; exact absurd hc (by decide))
      | simp [List.append_assoc]

theorem onA2aMessageSend_state_frame (agent : String → String → AgentOutcome)
    (ftid fsid faid : String) (st : TMState) (rid : RpcId) (m : A2AMessage) :
    (onA2aMessageSend agent ftid fsid faid st rid m).1.tasks = st.tasks ∧
    (onA2aMessageSend agent ftid fsid faid st rid m).1.writeLog = st.writeLog ∧
    (onA2aMessageSend agent ftid fsid faid st rid m).1.pushConfigs = st.pushConfigs := by
  unfold onA2aMessageSend
  cases ha : agent (m.parts.foldl
      (fun acc p => match p with | Part.text s => acc ++ s | _ => acc) "")
      (m.contextId.getD fsid) with
  | exc msg => simp [ha]
  | ok chunk => cases hc : chunk.isTaskComplete <;> simp [ha, hc]

/-- C1 amended: when the Agent's invocation raises, the two synchronous
send paths behave differently.  For `message/send` the exception is caught
inside the handler and returned as a well-formed JSON-RPC response whose
result is a task with terminal FAILED status (the stored state is
untouched).  For `tasks/send` the handler re-raises it as
`ValueError("Error invoking agent: ...")`, leaving the stored task in
WORKING — never FAILED; the exception is then caught at the server layer,
whose `_handle_exception` still returns a well-formed JSON-RPC error
response (InternalError, null id), so the process does not crash in either
case. -/
theorem c1_amended_agent_exception
    (compat : Option (List String) → List String → Bool)
    (supported : List String) (verify : String → Bool) (m : String)
    (st : TMState) (rid : RpcId) (p : TaskSendParams) (q : String)
    (rest : List Part)
    (h1 : compat p.acceptedOutputModes supported = true)
    (h2 : p.pushNotification = none)
    (h3 : p.message.parts = Part.text q :: rest) :
    (onSendTask compat supported verify (raisingAgent m) st rid p).2 =
      Except.error (PyExc.valueError ("Error invoking agent: " ++ m)) ∧
    ((lookupTask (onSendTask compat supported verify (raisingAgent m)
        st rid p).1.tasks p.id).map fun t => t.status.state) =
      some TaskState.working ∧
    handleException (PyExc.valueError ("Error invoking agent: " ++ m)) =
      { id := RpcId.nullId, error := some (InternalError none) } ∧
    (∀ (ftid fsid faid : String) (st2 : TMState) (rid2 : RpcId)
        (msg2 : A2AMessage),
      (onA2aMessageSend (raisingAgent m) ftid fsid faid st2 rid2 msg2).2 =
        { id := rid2
          result := some (ResultVal.taskResult
            { id := msg2.taskId.getD ftid, contextId := msg2.contextId.getD fsid
              status :=
                { state := TaskState.failed
                  message := some { role := "agent"
                                    parts := [Part.text ("Error: " ++ m)]
                                    messageId := freshMessageId } }
              artifacts := [], history := [] }) } ∧
      (onA2aMessageSend (raisingAgent m) ftid fsid faid st2 rid2 msg2).1.tasks =
        st2.tasks) := by
  rw [onSendTask_no_push compat supported verify (raisingAgent m) st rid p h1 h2]
  have hcore := onSendTaskCore_agent_exc (raisingAgent m) st rid p q rest m h3 rfl
  refine ⟨hcore.1, hcore.2.1, rfl, ?_⟩
  intro ftid fsid faid st2 rid2 msg2
  exact ⟨rfl, (onA2aMessageSend_state_frame (raisingAgent m) ftid fsid faid
    st2 rid2 msg2).1⟩

/-- Witness for C1's amended claim at concrete inputs: agent raising
"boom", task T1. -/
theorem c1_amended_agent_exception_witness :
    (onSendTask (fun _ _ => true) [] (fun _ => true) (raisingAgent "boom") {}
      (RpcId.numId 5) sampleSendParams).2 =
      Except.error (PyExc.valueError "Error invoking agent: boom") ∧
    ((lookupTask (onSendTask (fun _ _ => true) [] (fun _ => true)
        (raisingAgent "boom") {} (RpcId.numId 5) sampleSendParams).1.tasks
        "T1").map fun t => t.status.state) = some TaskState.working ∧
    (onA2aMessageSend (raisingAgent "boom") "ft" "fs" "fa" {} (RpcId.numId 6)
      { role := "user", parts := [Part.text "hi"], messageId := "m9" }).2 =
      { id := RpcId.numId 6
        result := some (ResultVal.taskResult
          { id := "ft", contextId := "fs"
            status :=
              { state := TaskState.failed
                message := some { role := "agent"
                                  parts := [Part.text "Error: boom"]
                                  messageId := freshMessageId } }
            artifacts := [], history := [] }) } := by
  have h := c1_amended_agent_exception (fun _ _ => true) [] (fun _ => true)
    "boom" {} (RpcId.numId 5) sampleSendParams "Hello" [] rfl rfl rfl
  exact ⟨h.1, h.2.1, (h.2.2.2 "ft" "fs" "fa" {} (RpcId.numId 6)
    { role := "user", parts := [Part.text "hi"], messageId := "m9" }).1⟩

/-! ## Claim C5 -/

/-- C5 counterexample: a `message/send` request that passes validation is
handled without any store interaction — the handler neither upserts a task
nor writes a WORKING status (nor any other state): the store and the
status-write log are untouched. -/
theorem c5_message_send_counterexample :
    (onA2aMessageSend stubAgent "ft" "fs" "fa" {} (RpcId.numId 1)
      { role := "user", parts := [Part.text "Hello"], messageId := "m1" }).1.tasks =
      [] ∧
    (onA2aMessageSend stubAgent "ft" "fs" "fa" {} (RpcId.numId 1)
      { role := "user", parts := [Part.text "Hello"], messageId := "m1" }).1.writeLog =
      [] := by
  exact ⟨rfl, rfl⟩

/-- C5 amended: the claimed lifecycle holds for `tasks/send` — the handler
upserts the task, writes WORKING, invokes the Agent once, then writes
COMPLETED with an appended artifact (agent did not require input) or
INPUT_REQUIRED with an agent message (agent required input), and returns
the final task — whereas the `message/send` handler invokes the Agent and
builds its response task directly, never creating or updating any stored
task. -/
theorem c5_amended_send_lifecycle
    (compat : Option (List String) → List String → Bool)
    (supported : List String) (verify : String → Bool)
    (agent : String → String → AgentOutcome) (st : TMState) (rid : RpcId)
    (p : TaskSendParams) (q : String) (rest : List Part) (chunk : AgentChunk)
    (h1 : compat p.acceptedOutputModes supported = true)
    (h2 : p.pushNotification = none)
    (h3 : p.message.parts = Part.text q :: rest)
    (ha : agent q p.sessionId = AgentOutcome.ok chunk) :
    (∃ t : StoredTask,
      (onSendTask compat supported verify agent st rid p).2 = Except.ok
        { id := rid
          result := some (ResultVal.taskResult (appendTaskHistory t p.historyLength)) } ∧
      lookupTask (onSendTask compat supported verify agent st rid p).1.tasks p.id =
        some t ∧
      t.status = (if chunk.requireUserInput then
        { state := TaskState.inputRequired
          message := some { role := "agent", parts := [Part.text chunk.content]
                            messageId := freshMessageId } }
        else { state := TaskState.completed }) ∧
      (chunk.requireUserInput = false → ∃ pre : List Artifact,
        t.artifacts = pre ++
          [{ artifactId := freshArtifactIdDefault, parts := [Part.text chunk.content] }]) ∧
      (onSendTask compat supported verify agent st rid p).1.writeLog =
        st.writeLog ++ [(p.id, TaskState.working), (p.id, t.status.state)] ∧
      (onSendTask compat supported verify agent st rid p).1.agentCalls =
        st.agentCalls ++ [(q, p.sessionId)]) ∧
    (∀ (ftid fsid faid : String) (st2 : TMState) (rid2 : RpcId)
        (msg2 : A2AMessage),
      (onA2aMessageSend agent ftid fsid faid st2 rid2 msg2).1.tasks = st2.tasks ∧
      (onA2aMessageSend agent ftid fsid faid st2 rid2 msg2).1.writeLog =
        st2.writeLog) := by
  constructor
  · rw [onSendTask_no_push compat supported verify agent st rid p h1 h2]
    exact onSendTaskCore_agent_ok agent st rid p q rest chunk h3 ha
  · intro ftid fsid faid st2 rid2 msg2
    have h := onA2aMessageSend_state_frame agent ftid fsid faid st2 rid2 msg2
    exact ⟨h.1, h.2.1⟩

/-- Witness for C5's amended claim: Scenario A — agent completes with
content "Hi"; the stored task T1 ends COMPLETED with the artifact, after a
WORKING write, and the response returns it. -/
theorem c5_amended_send_lifecycle_witness :
    (∃ t : StoredTask,
      (onSendTask (fun _ _ => true) [] (fun _ => true) stubAgent {}
        (RpcId.numId 5) sampleSendParams).2 = Except.ok
        { id := RpcId.numId 5
          result := some (ResultVal.taskResult
            (appendTaskHistory t sampleSendParams.historyLength)) } ∧
      lookupTask (onSendTask (fun _ _ => true) [] (fun _ => true) stubAgent {}
        (RpcId.numId 5) sampleSendParams).1.tasks "T1" = some t ∧
      t.status = { state := TaskState.completed } ∧
      (false = false → ∃ pre : List Artifact,
        t.artifacts = pre ++
          [{ artifactId := freshArtifactIdDefault, parts := [Part.text "ok"] }]) ∧
      (onSendTask (fun _ _ => true) [] (fun _ => true) stubAgent {}
        (RpcId.numId 5) sampleSendParams).1.writeLog =
        [("T1", TaskState.working), ("T1", t.status.state)] ∧
      (onSendTask (fun _ _ => true) [] (fun _ => true) stubAgent {}
        (RpcId.numId 5) sampleSendParams).1.agentCalls = [("Hello", "S1")]) := by
  have h := c5_amended_send_lifecycle (fun _ _ => true) [] (fun _ => true)
    stubAgent {} (RpcId.numId 5) sampleSendParams "Hello" []
    { isTaskComplete := true, requireUserInput := false, content := "ok" }
    rfl rfl rfl rfl
  obtain ⟨⟨t, ht1, ht2, ht3, ht4, ht5, ht6⟩, _⟩ := h
  exact ⟨t, ht1, ht2, ht3, ht4, ht5, ht6⟩

/-! ## Claim C9 -/

/-- The ways a send request fails validation at the handler level, as the
claim enumerates them: unsupported content-type, a push-notification
config without a URL, or a push-notification URL that fails the
verification challenge.  (A body with missing required params never
reaches the handler: the router's union parse rejects it without
dispatching.) -/
def sendValidationFails (compat : Option (List String) → List String → Bool)
    (supported : List String) (verify : String → Bool)
    (p : TaskSendParams) : Prop :=
  compat p.acceptedOutputModes supported = false ∨
  (∃ cfg, p.pushNotification = some cfg ∧
    (cfg.url = "" ∨ verify cfg.url = false))

/-- The JSON-RPC response the caller finally sees for a handler outcome:
the handler's own response, or — when the handler raised — the response
`_handle_exception` builds at the server layer. -/
def finalResponse (out : Except PyExc RpcResponse) : RpcResponse :=
  match out with
  | Except.ok r => r
  | Except.error e => handleException e

/-- C9: a send request that fails validation is answered with a JSON-RPC
error before the Agent is invoked, and no task state is created or
changed: the task store, the status-write log, the agent-invocation log
and the push registry are all untouched. -/
theorem c9_validation_rejected_before_agent
    (compat : Option (List String) → List String → Bool)
    (supported : List String) (verify : String → Bool)
    (agent : String → String → AgentOutcome) (st : TMState) (rid : RpcId)
    (p : TaskSendParams)
    (h : sendValidationFails compat supported verify p) :
    (finalResponse (onSendTask compat supported verify agent st rid p).2).error.isSome =
      true ∧
    (onSendTask compat supported verify agent st rid p).1.tasks = st.tasks ∧
    (onSendTask compat supported verify agent st rid p).1.writeLog = st.writeLog ∧
    (onSendTask compat supported verify agent st rid p).1.agentCalls =
      st.agentCalls ∧
    (onSendTask compat supported verify agent st rid p).1.pushConfigs =
      st.pushConfigs := by
  by_cases hc : compat p.acceptedOutputModes supported = false
  · have hres : onSendTask compat supported verify agent st rid p =
        (st, Except.ok (newIncompatibleTypesError rid)) := by
      unfold onSendTask validateRequest
      simp [hc]
    rw [hres]
    exact ⟨rfl, rfl, rfl, rfl, rfl⟩
  · have hc2 : compat p.acceptedOutputModes supported = true := by
      cases hcv : compat p.acceptedOutputModes supported
      · exact absurd hcv hc
      · rfl
    rcases h with h | ⟨cfg, hp, hd⟩
    · exact absurd h hc
    · by_cases hu : cfg.url = ""
      · have hres : onSendTask compat supported verify agent st rid p =
            (st, Except.error (PyExc.typeError
              "InvalidParamsError got an unexpected keyword argument message")) := by
          unfold onSendTask validateRequest
          simp [hc2, hp, hu]
        rw [hres]
        exact ⟨rfl, rfl, rfl, rfl, rfl⟩
      · have hv : verify cfg.url = false := by
          rcases hd with hd | hd
          · exact absurd hd hu
          · exact hd
        have hres : onSendTask compat supported verify agent st rid p =
            (st, Except.error (PyExc.typeError
              "InvalidParamsError got an unexpected keyword argument message")) := by
          unfold onSendTask validateRequest
          simp [hc2, hp, hu, hv, setPushNotificationInfo]
        rw [hres]
        exact ⟨rfl, rfl, rfl, rfl, rfl⟩

/-- Witness for C9 at a concrete input: a push config whose URL fails the
verification challenge; the handler state is untouched and the caller
sees an error. -/
theorem c9_validation_rejected_before_agent_witness :
    (finalResponse (onSendTask (fun _ _ => true) [] (fun _ => false) stubAgent {}
      (RpcId.numId 3)
      { sampleSendParams with
        pushNotification := some { url := "http://callback.example" } }).2).error.isSome =
      true ∧
    (onSendTask (fun _ _ => true) [] (fun _ => false) stubAgent {}
      (RpcId.numId 3)
      { sampleSendParams with
        pushNotification := some { url := "http://callback.example" } }).1.tasks =
      TMState.tasks {} ∧
    (onSendTask (fun _ _ => true) [] (fun _ => false) stubAgent {}
      (RpcId.numId 3)
      { sampleSendParams with
        pushNotification := some { url := "http://callback.example" } }).1.agentCalls =
      TMState.agentCalls {} := by
  have h := c9_validation_rejected_before_agent (fun _ _ => true) []
    (fun _ => false) stubAgent {} (RpcId.numId 3)
    { sampleSendParams with
      pushNotification := some { url := "http://callback.example" } }
    (Or.inr ⟨{ url := "http://callback.example" }, rfl, Or.inr rfl⟩)
  exact ⟨h.1, h.2.1, h.2.2.2.1⟩

end A2A
